import Mathlib

/-
Shallow embedding of the parsing front end of libndtypes
(src/libndtypes/parser.c).

The file models the four public operations of parser.c:

  ndt_from_file / ndt_from_file_fill_meta      (file input)
  ndt_from_string / ndt_from_string_fill_meta  (string input)
  ndt_from_metadata_and_dtype                  (ragged builder)

External collaborators (the flex scanner, the bison grammar, the
allocator, the file system) are modelled as an explicit record of
call outcomes (`World`, `FS`): each Lean function consumes those
outcomes exactly where parser.c consumes the corresponding C call.
Resource handling (scanner handle, scan-buffer handle, owned input
buffer, fclose targets) is tracked in outcome records so that the
teardown obligations of the code can be stated and proved.
-/

namespace Ndtypes

/-- Error kinds reported through an ndt_context_t (ndtypes.h enum). -/
inductive NdtErrKind where
  | LexError
  | MemoryError
  | OSError
  | InvalidArgumentError
deriving DecidableEq, Repr

/-- The error context: holds at most one pending error (kind plus
formatted message). -/
structure NdtContext where
  err : Option (NdtErrKind × String)
deriving DecidableEq, Repr

/-- ndt_err_format: record an error (kind, message) in the context. -/
def ndt_err_format (ctx : NdtContext) (kind : NdtErrKind) (msg : String) :
    NdtContext :=
  let _ := ctx
  { err := some (kind, msg) }

/-- Offset-source tag of a variable dimension (enum ndt_offsets). -/
inductive NdtOffsets where
  | InternalOffsets
  | ExternalOffsets
deriving DecidableEq, Repr

/-- Type nodes. Parsed trees coming back from the external grammar are
opaque to this core except for their abstract/concrete tag, so they are
modelled by `base` nodes carrying that tag and an identity; the
variable-dimension variant carries the offset-source tag, the offset
count and the offset array, and exclusively owns its element type. -/
inductive Ndt where
  | base (isAbstract : Bool) (id : Nat)
  | varDim (flag : NdtOffsets) (noffsets : Nat) (offsets : List Int) (elem : Ndt)
deriving DecidableEq, Repr

/-- Modelled from the spec: `ndt_is_abstract` (ndtypes.h/ndtypes.c, not
under src/) tests the abstract/concrete tag of a type node; a
variable-dimension node built with external offsets is concrete. -/
def ndt_is_abstract : Ndt → Bool
  | .base a _ => a
  | .varDim _ _ _ _ => false

/-- Modelled from the spec: the external variable-dimension constructor
`ndt_var_dim` (ndtypes.c, not under src/) wraps a type as a new
variable-dimension node whose element type is the given type and whose
offset-source tag, offset count and offset array are the given ones.
The C signature also takes start/step (passed as 0/NULL here) and the
error context; allocation failure inside the constructor is not
modelled (see the parametric `wrap_loop` for the failure-propagation
analysis). -/
def ndt_var_dim (type : Ndt) (flag : NdtOffsets) (noffsets : Nat)
    (offsets : List Int) : Option Ndt :=
  some (.varDim flag noffsets offsets type)

/-- Modelled from the spec: `ndt_memory_error` (context.c, not under
src/) reports MemoryError and yields a null tree. -/
def ndt_memory_error (ctx : NdtContext) : Option Ndt × NdtContext :=
  (none, ndt_err_format ctx .MemoryError "out of memory")

/-- Dimension metadata (ndt_meta_t): ndims parallel records, each an
offset count noffsets[i] and a borrowed offset array offsets[i], outer
record first. -/
structure NdtMeta where
  dims : List (Nat × List Int)
deriving DecidableEq, Repr

/-- INT_MAX of the C platform (32-bit int). -/
def INT_MAX : Nat := 2147483647

/-- Outcomes of the external calls made during one parse call: whether
ndt_alloc_size succeeds, whether ndt_yylex_init_extra returns 0,
whether the flex fatal-error longjmp fires inside ndt_yy_scan_buffer
or inside ndt_yyparse, and the (status, tree) pair ndt_yyparse returns
when it completes normally (for the string path as a function of the
scanned buffer, for the file path as a single outcome since stream
contents are not modelled). -/
structure World where
  allocOk : Bool
  lexInitOk : Bool
  fatalInScanBuffer : Bool
  fatalInParse : Bool
  parseBuf : List Nat → Int × Option Ndt
  parseFp : Int × Option Ndt

/-- Observable outcome of one _ndt_from_fp call: the returned tree, the
final context, and whether the scanner handle was created/destroyed
during the call. -/
structure FpOutcome where
  result : Option Ndt
  ctx : NdtContext
  createdScanner : Bool
  destroyedScanner : Bool
deriving DecidableEq, Repr

/-- _ndt_from_fp (parser.c lines 66-100): run one scan session over an
open stream inside the setjmp recovery point. The meta argument is
forwarded to the external grammar and not modelled further. The
volatile scanner variable makes the handle value visible on the
recovered (longjmp) branch, which the model reflects by destroying the
scanner there exactly when it had been created. -/
def _ndt_from_fp (w : World) (ctx : NdtContext) : FpOutcome :=
  if w.lexInitOk = false then
    { result := none
      ctx := ndt_err_format ctx .LexError "lexer initialization failed"
      createdScanner := false
      destroyedScanner := false }
  else if w.fatalInParse then
    { result := none
      ctx := ndt_err_format ctx .MemoryError
        "out of memory (most likely) or internal lexer error"
      createdScanner := true
      destroyedScanner := true }
  else
    let r := w.parseFp
    { result := r.2
      ctx := if r.1 = 2 then ndt_err_format ctx .MemoryError "out of memory"
             else ctx
      createdScanner := true
      destroyedScanner := true }

/-- Observable outcome of one _ndt_from_string call: the returned tree,
the final context, the heap buffer as written (input copy plus two
forced zero terminators; none when no buffer was allocated), and the
resource events of the call. -/
structure StrOutcome where
  result : Option Ndt
  ctx : NdtContext
  bufferContents : Option (List Nat)
  freedBuffer : Bool
  createdScanner : Bool
  destroyedScanner : Bool
  createdState : Bool
  freedState : Bool
deriving DecidableEq, Repr

/-- _ndt_from_string (parser.c lines 137-195): length guard, buffer
preparation, scan session over the buffer inside the setjmp recovery
point. Input is the byte string (strlen = list length). The volatile
scanner/state variables make the latest handle values visible on the
recovered branch, so the recovered branch tears each handle down
exactly when it had been created. -/
def _ndt_from_string (w : World) (input : List Nat) (ctx : NdtContext) :
    StrOutcome :=
  if input.length > INT_MAX / 2 then
    { result := none
      ctx := ndt_err_format ctx .LexError
        ("maximum input length: " ++ toString (INT_MAX / 2))
      bufferContents := none
      freedBuffer := false
      createdScanner := false
      destroyedScanner := false
      createdState := false
      freedState := false }
  else if w.allocOk = false then
    { result := (ndt_memory_error ctx).1
      ctx := (ndt_memory_error ctx).2
      bufferContents := none
      freedBuffer := false
      createdScanner := false
      destroyedScanner := false
      createdState := false
      freedState := false }
  else
    let buffer := input ++ [0, 0]
    if w.lexInitOk = false then
      { result := none
        ctx := ndt_err_format ctx .LexError "lexer initialization failed"
        bufferContents := some buffer
        freedBuffer := true
        createdScanner := false
        destroyedScanner := false
        createdState := false
        freedState := false }
    else if w.fatalInScanBuffer then
      { result := none
        ctx := ndt_err_format ctx .MemoryError "flex: internal lexer error"
        bufferContents := some buffer
        freedBuffer := true
        createdScanner := true
        destroyedScanner := true
        createdState := false
        freedState := false }
    else if w.fatalInParse then
      { result := none
        ctx := ndt_err_format ctx .MemoryError "flex: internal lexer error"
        bufferContents := some buffer
        freedBuffer := true
        createdScanner := true
        destroyedScanner := true
        createdState := true
        freedState := true }
    else
      let r := w.parseBuf buffer
      { result := r.2
        ctx := if r.1 = 2 then ndt_err_format ctx .MemoryError "out of memory"
               else ctx
        bufferContents := some buffer
        freedBuffer := true
        createdScanner := true
        destroyedScanner := true
        createdState := true
        freedState := true }

/-- ndt_from_string (parser.c lines 197-201): string entry point with a
null meta argument. -/
def ndt_from_string (w : World) (input : List Nat) (ctx : NdtContext) :
    StrOutcome :=
  _ndt_from_string w input ctx

/-- ndt_from_string_fill_meta (parser.c lines 203-207): same session,
the meta argument only being forwarded to the external grammar. -/
def ndt_from_string_fill_meta (w : World) (m : NdtMeta) (input : List Nat)
    (ctx : NdtContext) : StrOutcome :=
  let _ := m
  _ndt_from_string w input ctx

/-- The file system as seen by ndt_fopen: whether fopen(name, "rb")
succeeds for a given path. -/
structure FS where
  openable : String → Bool

/-- Observable outcome of one _ndt_from_file call: the returned tree,
the final context, which file was fopen-ed (none for the stdin sentinel
and for a failed open), the fclose targets, whether the stdin stream
handed to the session was already closed when the call began, and
whether the process-wide stdin stream is closed once the call returns. -/
structure FileOutcome where
  result : Option Ndt
  ctx : NdtContext
  openedFile : Option String
  closedStdin : Bool
  closedFile : Option String
  usedStdinStream : Bool
  usedClosedStdin : Bool
  stdinClosedAfter : Bool
deriving Repr

/-- _ndt_from_file (parser.c lines 102-123): resolve the path (the "-"
sentinel selects the stdin stream without opening anything; any other
path is fopen-ed for binary read, a failed open reporting OSError with
the path in the message), run the stream session, then fclose the
stream unconditionally. `stdinClosed` is the process-wide flag saying
whether stdin has already been fclose-d by an earlier call. -/
def _ndt_from_file (w : World) (fs : FS) (name : String) (ctx : NdtContext)
    (stdinClosed : Bool) : FileOutcome :=
  if name = "-" then
    let o := _ndt_from_fp w ctx
    { result := o.result
      ctx := o.ctx
      openedFile := none
      closedStdin := true
      closedFile := none
      usedStdinStream := true
      usedClosedStdin := stdinClosed
      stdinClosedAfter := true }
  else if fs.openable name then
    let o := _ndt_from_fp w ctx
    { result := o.result
      ctx := o.ctx
      openedFile := some name
      closedStdin := false
      closedFile := some name
      usedStdinStream := false
      usedClosedStdin := false
      stdinClosedAfter := stdinClosed }
  else
    { result := none
      ctx := ndt_err_format ctx .OSError ("could not open " ++ name)
      openedFile := none
      closedStdin := false
      closedFile := none
      usedStdinStream := false
      usedClosedStdin := false
      stdinClosedAfter := stdinClosed }

/-- ndt_from_file (parser.c lines 125-129): file entry point with a
null meta argument. -/
def ndt_from_file (w : World) (fs : FS) (name : String) (ctx : NdtContext)
    (stdinClosed : Bool) : FileOutcome :=
  _ndt_from_file w fs name ctx stdinClosed

/-- ndt_from_file_fill_meta (parser.c lines 131-135): same session, the
meta argument only being forwarded to the external grammar. -/
def ndt_from_file_fill_meta (w : World) (m : NdtMeta) (fs : FS)
    (name : String) (ctx : NdtContext) (stdinClosed : Bool) : FileOutcome :=
  let _ := m
  _ndt_from_file w fs name ctx stdinClosed

/-- The folding loop of ndt_from_metadata_and_dtype (parser.c lines
227-233), parametric in the variable-dimension constructor: for each
metadata record in order (index 0 first), wrap the current type; a
constructor failure is returned immediately. The empty record list
returns the type unchanged (in C, t is initialized to type before the
loop). -/
def wrap_loop (f : Ndt → Nat → List Int → Option Ndt) :
    List (Nat × List Int) → Ndt → Option Ndt
  | [], t => some t
  | d :: rest, type =>
    match f type d.1 d.2 with
    | none => none
    | some t => wrap_loop f rest t

/-- Observable outcome of one ndt_from_metadata_and_dtype call: the
returned tree, the final context, whether ndt_del was applied to the
parsed dtype, and whether this core released any partially built
variable-dimension nodes on a wrap failure (parser.c contains no such
release: the loop returns NULL directly). -/
structure BuildOutcome where
  result : Option Ndt
  ctx : NdtContext
  deletedParsed : Bool
  releasedPartial : Bool
deriving DecidableEq, Repr

/-- ndt_from_metadata_and_dtype (parser.c lines 209-236): parse the
dtype string, reject an abstract result (reporting
InvalidArgumentError and deleting the parsed type), then fold the
metadata records onto the dtype with ndt_var_dim (ExternalOffsets,
noffsets[i], offsets[i]), returning NULL immediately if a wrap fails. -/
def ndt_from_metadata_and_dtype (w : World) (m : NdtMeta)
    (dtype : List Nat) (ctx : NdtContext) : BuildOutcome :=
  let o := ndt_from_string w dtype ctx
  match o.result with
  | none =>
    { result := none, ctx := o.ctx, deletedParsed := false,
      releasedPartial := false }
  | some type =>
    if ndt_is_abstract type then
      { result := none
        ctx := ndt_err_format o.ctx .InvalidArgumentError
          "cannot create abstract type with offsets"
        deletedParsed := true
        releasedPartial := false }
    else
      match wrap_loop
          (fun t n offs => ndt_var_dim t .ExternalOffsets n offs)
          m.dims type with
      | none =>
        { result := none, ctx := o.ctx, deletedParsed := false,
          releasedPartial := false }
      | some t =>
        { result := some t, ctx := o.ctx, deletedParsed := false,
          releasedPartial := false }

/-- A fresh error context with no pending error. -/
def ctx0 : NdtContext := { err := none }

/-- Sample call outcomes: every external call succeeds and the grammar
yields a concrete scalar type. -/
def wOk : World :=
  { allocOk := true, lexInitOk := true, fatalInScanBuffer := false,
    fatalInParse := false,
    parseBuf := fun _ => (0, some (.base false 7)),
    parseFp := (0, some (.base false 7)) }

/-- Sample call outcomes: every external call succeeds and the grammar
yields an abstract type. -/
def wAbstract : World :=
  { allocOk := true, lexInitOk := true, fatalInScanBuffer := false,
    fatalInParse := false,
    parseBuf := fun _ => (0, some (.base true 3)),
    parseFp := (0, some (.base true 3)) }

/-- Sample call outcomes: the flex fatal error fires inside
ndt_yyparse. -/
def wFatal : World :=
  { allocOk := true, lexInitOk := true, fatalInScanBuffer := false,
    fatalInParse := true,
    parseBuf := fun _ => (0, none),
    parseFp := (0, none) }

/-- Sample call outcomes: the grammar parse completes with status code
2 (its out-of-memory code) and a null tree. -/
def wRet2 : World :=
  { allocOk := true, lexInitOk := true, fatalInScanBuffer := false,
    fatalInParse := false,
    parseBuf := fun _ => (2, none),
    parseFp := (2, none) }

/-- Sample file system in which no path can be opened. -/
def fsNone : FS := { openable := fun _ => false }

/-- A wrap failure at the head record makes the folding loop of
ndt_from_metadata_and_dtype fail immediately, with no release action
of its own (the loop body contains none). -/
theorem wrap_loop_fail_head (f : Ndt → Nat → List Int → Option Ndt)
    (d : Nat × List Int) (rest : List (Nat × List Int)) (t : Ndt)
    (h : f t d.1 d.2 = none) : wrap_loop f (d :: rest) t = none := by
  simp [wrap_loop, h]

/-- The ragged builder core never releases partially built
variable-dimension nodes on any path. -/
theorem build_releases_no_partial (w : World) (m : NdtMeta)
    (dtype : List Nat) (ctx : NdtContext) :
    (ndt_from_metadata_and_dtype w m dtype ctx).releasedPartial = false := by
  cases hres : (ndt_from_string w dtype ctx).result with
  | none => simp [ndt_from_metadata_and_dtype, hres]
  | some ty =>
    by_cases h : ndt_is_abstract ty = true
    · simp [ndt_from_metadata_and_dtype, hres, h]
    · cases hw : wrap_loop
          (fun t n offs => ndt_var_dim t .ExternalOffsets n offs)
          m.dims ty with
      | none => simp [ndt_from_metadata_and_dtype, hres, h, hw]
      | some t => simp [ndt_from_metadata_and_dtype, hres, h, hw]

/-- C1 (counterexample): with the concrete metadata records d0 =
(1, [0]) and d1 = (2, [0, 5]) given outer-first and a dtype string that
parses to the concrete type base false 7, the builder does NOT return a
type whose outermost variable-dimension node carries the offsets of
d0: the forward loop of parser.c line 227 wraps record 0 first, so the
outermost node carries the offsets of the LAST record. -/
theorem ragged_nesting_counterexample :
    (ndt_from_string wOk [65] ctx0).result = some (.base false 7) ∧
    ndt_is_abstract (.base false 7) = false ∧
    (ndt_from_metadata_and_dtype wOk { dims := [(1, [0]), (2, [0, 5])] }
        [65] ctx0).result ≠
      some (.varDim .ExternalOffsets 1 [0]
        (.varDim .ExternalOffsets 2 [0, 5] (.base false 7))) := by
  refine ⟨by decide, by decide, by decide⟩

/-- C1 (amended): for metadata [d0, d1] given outer-first and a dtype
string that parses to a concrete type, the builder returns a type
whose OUTERMOST variable-dimension node carries the offsets and count
of d1, whose element type is a variable-dimension node carrying the
offsets and count of d0, and whose innermost element is the parsed
dtype; both nodes carry the ExternalOffsets tag. -/
theorem ragged_nesting_inner_first (w : World) (d0 d1 : Nat × List Int)
    (dtype : List Nat) (ctx : NdtContext) (ty : Ndt)
    (hp : (ndt_from_string w dtype ctx).result = some ty)
    (ha : ndt_is_abstract ty = false) :
    (ndt_from_metadata_and_dtype w { dims := [d0, d1] } dtype ctx).result =
      some (.varDim .ExternalOffsets d1.1 d1.2
        (.varDim .ExternalOffsets d0.1 d0.2 ty)) := by
  simp [ndt_from_metadata_and_dtype, hp, ha, wrap_loop, ndt_var_dim]

/-- C1 (witness): the amended nesting theorem evaluated at the
concrete counterexample input. -/
theorem ragged_nesting_inner_first_witness :
    (ndt_from_metadata_and_dtype wOk { dims := [(1, [0]), (2, [0, 5])] }
        [65] ctx0).result =
      some (.varDim .ExternalOffsets 2 [0, 5]
        (.varDim .ExternalOffsets 1 [0] (.base false 7))) :=
  ragged_nesting_inner_first wOk (1, [0]) (2, [0, 5]) [65] ctx0
    (.base false 7) (by decide) (by decide)

/-- C3: whenever the dtype string parses to an abstract type, the
builder returns null, reports InvalidArgumentError with the message
"cannot create abstract type with offsets", and deletes the parsed
type, for every metadata value including the empty one. -/
theorem abstract_dtype_rejected (w : World) (m : NdtMeta)
    (dtype : List Nat) (ctx : NdtContext) (ty : Ndt)
    (hp : (ndt_from_string w dtype ctx).result = some ty)
    (ha : ndt_is_abstract ty = true) :
    (ndt_from_metadata_and_dtype w m dtype ctx).result = none ∧
    (ndt_from_metadata_and_dtype w m dtype ctx).ctx.err =
      some (.InvalidArgumentError,
        "cannot create abstract type with offsets") ∧
    (ndt_from_metadata_and_dtype w m dtype ctx).deletedParsed = true := by
  refine ⟨?_, ?_, ?_⟩ <;>
    simp [ndt_from_metadata_and_dtype, hp, ha, ndt_err_format]

/-- C3 (witness): the abstract-rejection theorem evaluated at a
concrete abstract parse, with one metadata record. -/
theorem abstract_dtype_rejected_witness :
    (ndt_from_metadata_and_dtype wAbstract { dims := [(1, [0])] }
        [66] ctx0).result = none ∧
    (ndt_from_metadata_and_dtype wAbstract { dims := [(1, [0])] }
        [66] ctx0).ctx.err =
      some (.InvalidArgumentError,
        "cannot create abstract type with offsets") ∧
    (ndt_from_metadata_and_dtype wAbstract { dims := [(1, [0])] }
        [66] ctx0).deletedParsed = true :=
  abstract_dtype_rejected wAbstract { dims := [(1, [0])] } [66] ctx0
    (.base true 3) (by decide) (by decide)

/-- C4 (counterexample): with a dtype string that parses to an
abstract type, the builder called with zero dimension records returns
null while the plain string parse returns the abstract tree, so the
two results differ. -/
theorem zero_dims_counterexample :
    (ndt_from_string wAbstract [] ctx0).result = some (.base true 3) ∧
    (ndt_from_metadata_and_dtype wAbstract { dims := [] } [] ctx0).result ≠
      (ndt_from_string wAbstract [] ctx0).result := by
  refine ⟨by decide, by decide⟩

/-- C4 (amended): provided the dtype parse does not yield an abstract
type (it fails, or yields a concrete type), the builder called with
zero dimension records returns exactly the result of the plain string
parse, with no variable-dimension wrapping. -/
theorem zero_dims_identity (w : World) (dtype : List Nat)
    (ctx : NdtContext)
    (h : ((ndt_from_string w dtype ctx).result.all
        fun ty => ! ndt_is_abstract ty) = true) :
    (ndt_from_metadata_and_dtype w { dims := [] } dtype ctx).result =
      (ndt_from_string w dtype ctx).result := by
  cases hres : (ndt_from_string w dtype ctx).result with
  | none => simp [ndt_from_metadata_and_dtype, hres]
  | some ty =>
    rw [hres] at h
    simp only [Option.all_some, Bool.not_eq_true', Bool.not_eq_false] at h
    simp [ndt_from_metadata_and_dtype, hres, h, wrap_loop]

/-- C4 (witness): the zero-record identity theorem evaluated at a
concrete concrete-dtype parse. -/
theorem zero_dims_identity_witness :
    (ndt_from_metadata_and_dtype wOk { dims := [] } [67] ctx0).result =
      (ndt_from_string wOk [67] ctx0).result :=
  zero_dims_identity wOk [67] ctx0 (by decide)

/-- C5: a string whose byte length exceeds INT_MAX / 2 = 1073741823 is
rejected up front: the call returns null and the context holds
LexError with the exact byte limit in the message, and this happens
for every world, in particular before any buffer allocation
(bufferContents stays none even when the allocator would fail) and
before any scanner creation. -/
theorem oversized_input_rejected (w : World) (input : List Nat)
    (ctx : NdtContext) (h : input.length > INT_MAX / 2) :
    (_ndt_from_string w input ctx).result = none ∧
    (_ndt_from_string w input ctx).ctx.err =
      some (.LexError, "maximum input length: 1073741823") ∧
    (_ndt_from_string w input ctx).bufferContents = none ∧
    (_ndt_from_string w input ctx).createdScanner = false := by
  refine ⟨?_, ?_, ?_, ?_⟩ <;>
    simp [_ndt_from_string, h, ndt_err_format]
  rfl

/-- C5 (witness): the oversized-input theorem evaluated at a concrete
input of 1073741824 zero bytes, one byte over the limit. -/
theorem oversized_input_rejected_witness :
    (_ndt_from_string wOk (List.replicate 1073741824 0) ctx0).result =
      none ∧
    (_ndt_from_string wOk (List.replicate 1073741824 0) ctx0).ctx.err =
      some (.LexError, "maximum input length: 1073741823") ∧
    (_ndt_from_string wOk
        (List.replicate 1073741824 0) ctx0).bufferContents = none ∧
    (_ndt_from_string wOk
        (List.replicate 1073741824 0) ctx0).createdScanner = false :=
  oversized_input_rejected wOk (List.replicate 1073741824 0) ctx0
    (by rw [List.length_replicate]; decide)

/-- C2 (counterexample): on the recovered fatal-error path of the
string (buffer) input, the reported message is exactly
"flex: internal lexer error", which differs from the message
"internal lexer error" stated by the claim. -/
theorem trampoline_message_counterexample :
    (_ndt_from_string wFatal [] ctx0).ctx.err =
      some (.MemoryError, "flex: internal lexer error") ∧
    "flex: internal lexer error" ≠ "internal lexer error" := by
  refine ⟨by decide, by decide⟩

/-- C2 (amended): when the fatal-error trampoline fires during a
parse, the operation returns null after tearing down the scanner
handle (and, for string input, the scan-buffer handle) exactly when
non-null, releasing the owned input buffer for string input, and
reporting MemoryError with the message "out of memory (most likely)
or internal lexer error" for file input and "flex: internal lexer
error" for buffer (string) input; the scanner is destroyed before
returning on the success path, the ordinary-failure path, and the
recovered path alike. -/
theorem trampoline_recovery_teardown (w : World) (input : List Nat)
    (ctx : NdtContext)
    (hlen : input.length ≤ INT_MAX / 2) (halloc : w.allocOk = true)
    (hinit : w.lexInitOk = true) :
    (w.fatalInParse = true →
      _ndt_from_fp w ctx =
        { result := none
          ctx := ndt_err_format ctx .MemoryError
            "out of memory (most likely) or internal lexer error"
          createdScanner := true
          destroyedScanner := true }) ∧
    (w.fatalInScanBuffer = false → w.fatalInParse = true →
      _ndt_from_string w input ctx =
        { result := none
          ctx := ndt_err_format ctx .MemoryError
            "flex: internal lexer error"
          bufferContents := some (input ++ [0, 0])
          freedBuffer := true
          createdScanner := true
          destroyedScanner := true
          createdState := true
          freedState := true }) ∧
    (w.fatalInScanBuffer = true →
      _ndt_from_string w input ctx =
        { result := none
          ctx := ndt_err_format ctx .MemoryError
            "flex: internal lexer error"
          bufferContents := some (input ++ [0, 0])
          freedBuffer := true
          createdScanner := true
          destroyedScanner := true
          createdState := false
          freedState := false }) ∧
    (w.fatalInScanBuffer = false → w.fatalInParse = false →
      (_ndt_from_fp w ctx).destroyedScanner = true ∧
      (_ndt_from_string w input ctx).destroyedScanner = true ∧
      (_ndt_from_string w input ctx).freedState = true ∧
      (_ndt_from_string w input ctx).freedBuffer = true) := by
  have hno : ¬ (input.length > INT_MAX / 2) := Nat.not_lt.mpr hlen
  refine ⟨fun hf => ?_, fun hsb hf => ?_, fun hsb => ?_, fun hsb hf => ?_⟩
  · simp [_ndt_from_fp, hinit, hf]
  · simp [_ndt_from_string, hno, halloc, hinit, hsb, hf]
  · simp [_ndt_from_string, hno, halloc, hinit, hsb]
  · refine ⟨?_, ?_, ?_, ?_⟩ <;>
      simp [_ndt_from_fp, _ndt_from_string, hno, halloc, hinit, hsb, hf]

/-- C2 (witness): the trampoline teardown theorem evaluated at the
concrete world whose fatal error fires during ndt_yyparse, on the
empty input string. -/
theorem trampoline_recovery_teardown_witness :
    (wFatal.fatalInParse = true →
      _ndt_from_fp wFatal ctx0 =
        { result := none
          ctx := ndt_err_format ctx0 .MemoryError
            "out of memory (most likely) or internal lexer error"
          createdScanner := true
          destroyedScanner := true }) ∧
    (wFatal.fatalInScanBuffer = false → wFatal.fatalInParse = true →
      _ndt_from_string wFatal [] ctx0 =
        { result := none
          ctx := ndt_err_format ctx0 .MemoryError
            "flex: internal lexer error"
          bufferContents := some ([] ++ [0, 0])
          freedBuffer := true
          createdScanner := true
          destroyedScanner := true
          createdState := true
          freedState := true }) ∧
    (wFatal.fatalInScanBuffer = true →
      _ndt_from_string wFatal [] ctx0 =
        { result := none
          ctx := ndt_err_format ctx0 .MemoryError
            "flex: internal lexer error"
          bufferContents := some ([] ++ [0, 0])
          freedBuffer := true
          createdScanner := true
          destroyedScanner := true
          createdState := false
          freedState := false }) ∧
    (wFatal.fatalInScanBuffer = false → wFatal.fatalInParse = false →
      (_ndt_from_fp wFatal ctx0).destroyedScanner = true ∧
      (_ndt_from_string wFatal [] ctx0).destroyedScanner = true ∧
      (_ndt_from_string wFatal [] ctx0).freedState = true ∧
      (_ndt_from_string wFatal [] ctx0).freedBuffer = true) :=
  trampoline_recovery_teardown wFatal [] ctx0 (by decide) rfl rfl

/-- C7: the path "-" selects the standard-input stream and opens no
file; any other path is opened for binary read, and a failed open
returns null and reports OSError with the path named in the message. -/
theorem open_file_contract (w : World) (fs : FS) (name : String)
    (ctx : NdtContext) (sc : Bool) :
    (name = "-" →
      (_ndt_from_file w fs name ctx sc).openedFile = none ∧
      (_ndt_from_file w fs name ctx sc).usedStdinStream = true) ∧
    (name ≠ "-" → fs.openable name = true →
      (_ndt_from_file w fs name ctx sc).openedFile = some name ∧
      (_ndt_from_file w fs name ctx sc).usedStdinStream = false) ∧
    (name ≠ "-" → fs.openable name = false →
      (_ndt_from_file w fs name ctx sc).result = none ∧
      (_ndt_from_file w fs name ctx sc).ctx.err =
        some (.OSError, "could not open " ++ name) ∧
      (_ndt_from_file w fs name ctx sc).openedFile = none) := by
  refine ⟨fun h => ?_, fun h ho => ?_, fun h ho => ?_⟩
  · simp [_ndt_from_file, h]
  · simp [_ndt_from_file, h, ho]
  · simp [_ndt_from_file, h, ho, ndt_err_format]

/-- C7 (witness): the open contract evaluated at a path that is not
"-" in a file system where no open succeeds: the call fails with
OSError naming the path. -/
theorem open_file_contract_witness :
    ((_ndt_from_file wOk fsNone "missing.txt" ctx0 false).result = none ∧
     (_ndt_from_file wOk fsNone "missing.txt" ctx0 false).ctx.err =
       some (.OSError, "could not open " ++ "missing.txt") ∧
     (_ndt_from_file wOk fsNone "missing.txt" ctx0 false).openedFile =
       none) ∧
    ("could not open " ++ "missing.txt" : String) =
      "could not open missing.txt" :=
  ⟨(open_file_contract wOk fsNone "missing.txt" ctx0 false).2.2
      (by decide) rfl,
   by decide⟩

/-- C8: the grammar status code is interpreted so that the specific
code 2 additionally reports MemoryError with message "out of memory"
before the produced tree pointer (which may be null) is returned, on
the file path and on the string path alike; under the grammar
convention that a tree is produced exactly when the status is 0, a
null return coincides with a nonzero status. -/
theorem parse_status_codes (w : World) (input : List Nat)
    (ctx : NdtContext)
    (hlen : input.length ≤ INT_MAX / 2) (halloc : w.allocOk = true)
    (hinit : w.lexInitOk = true) (hsb : w.fatalInScanBuffer = false)
    (hf : w.fatalInParse = false) :
    ((_ndt_from_fp w ctx).result = w.parseFp.2 ∧
     (_ndt_from_fp w ctx).ctx =
       (if w.parseFp.1 = 2 then
          ndt_err_format ctx .MemoryError "out of memory" else ctx)) ∧
    ((_ndt_from_string w input ctx).result =
       (w.parseBuf (input ++ [0, 0])).2 ∧
     (_ndt_from_string w input ctx).ctx =
       (if (w.parseBuf (input ++ [0, 0])).1 = 2 then
          ndt_err_format ctx .MemoryError "out of memory" else ctx)) ∧
    ((w.parseFp.2.isSome = true ↔ w.parseFp.1 = 0) →
      ((_ndt_from_fp w ctx).result = none ↔ w.parseFp.1 ≠ 0)) ∧
    (((w.parseBuf (input ++ [0, 0])).2.isSome = true ↔
        (w.parseBuf (input ++ [0, 0])).1 = 0) →
      ((_ndt_from_string w input ctx).result = none ↔
        (w.parseBuf (input ++ [0, 0])).1 ≠ 0)) := by
  have hno : ¬ (input.length > INT_MAX / 2) := Nat.not_lt.mpr hlen
  have h1 : (_ndt_from_fp w ctx).result = w.parseFp.2 := by
    simp [_ndt_from_fp, hinit, hf]
  have h2 : (_ndt_from_string w input ctx).result =
      (w.parseBuf (input ++ [0, 0])).2 := by
    simp [_ndt_from_string, hno, halloc, hinit, hsb, hf]
  refine ⟨⟨h1, ?_⟩, ⟨h2, ?_⟩, fun hc => ?_, fun hc => ?_⟩
  · simp [_ndt_from_fp, hinit, hf]
  · simp [_ndt_from_string, hno, halloc, hinit, hsb, hf]
  · rw [h1]
    cases hv : w.parseFp.2 <;> simp [hv] at hc ⊢ <;> omega
  · rw [h2]
    cases hv : (w.parseBuf (input ++ [0, 0])).2 <;>
      simp [hv] at hc ⊢ <;> omega

/-- C8 (witness): the status-code theorem evaluated at the concrete
world whose grammar parse returns status 2 and a null tree, on the
empty input. -/
theorem parse_status_codes_witness :
    ((_ndt_from_fp wRet2 ctx0).result = wRet2.parseFp.2 ∧
     (_ndt_from_fp wRet2 ctx0).ctx =
       (if wRet2.parseFp.1 = 2 then
          ndt_err_format ctx0 .MemoryError "out of memory" else ctx0)) ∧
    ((_ndt_from_string wRet2 [] ctx0).result =
       (wRet2.parseBuf ([] ++ [0, 0])).2 ∧
     (_ndt_from_string wRet2 [] ctx0).ctx =
       (if (wRet2.parseBuf ([] ++ [0, 0])).1 = 2 then
          ndt_err_format ctx0 .MemoryError "out of memory" else ctx0)) ∧
    ((wRet2.parseFp.2.isSome = true ↔ wRet2.parseFp.1 = 0) →
      ((_ndt_from_fp wRet2 ctx0).result = none ↔ wRet2.parseFp.1 ≠ 0)) ∧
    (((wRet2.parseBuf ([] ++ [0, 0])).2.isSome = true ↔
        (wRet2.parseBuf ([] ++ [0, 0])).1 = 0) →
      ((_ndt_from_string wRet2 [] ctx0).result = none ↔
        (wRet2.parseBuf ([] ++ [0, 0])).1 ≠ 0)) :=
  parse_status_codes wRet2 [] ctx0 (by decide) rfl rfl rfl rfl

/-- C9: for input within the length limit, the string path prepares a
heap buffer that is exactly the input followed by two forced zero
terminator bytes, of size input length + 2, with the input copied
unchanged; when the allocation fails the call returns null and the
context reports MemoryError. -/
theorem buffer_preparation (w : World) (input : List Nat)
    (ctx : NdtContext) (hlen : input.length ≤ INT_MAX / 2) :
    (w.allocOk = true →
      (_ndt_from_string w input ctx).bufferContents =
        some (input ++ [0, 0]) ∧
      (input ++ [0, 0]).length = input.length + 2 ∧
      (input ++ [0, 0]).take input.length = input ∧
      (input ++ [0, 0]).drop input.length = [0, 0]) ∧
    (w.allocOk = false →
      (_ndt_from_string w input ctx).result = none ∧
      (_ndt_from_string w input ctx).ctx.err =
        some (.MemoryError, "out of memory")) := by
  have hno : ¬ (input.length > INT_MAX / 2) := Nat.not_lt.mpr hlen
  refine ⟨fun ha => ⟨?_, ?_, ?_, ?_⟩, fun ha => ?_⟩
  · cases hli : w.lexInitOk <;> cases hsb : w.fatalInScanBuffer <;>
      cases hfp : w.fatalInParse <;>
      simp [_ndt_from_string, hno, ha, hli, hsb, hfp]
  · simp
  · simp [List.take_left]
  · simp [List.drop_left]
  · refine ⟨?_, ?_⟩ <;>
      simp [_ndt_from_string, hno, ha, ndt_memory_error, ndt_err_format]

/-- C9 (witness): the buffer-preparation theorem evaluated at the
concrete two-byte input [1, 2] in the world where every external call
succeeds. -/
theorem buffer_preparation_witness :
    (wOk.allocOk = true →
      (_ndt_from_string wOk [1, 2] ctx0).bufferContents =
        some ([1, 2] ++ [0, 0]) ∧
      ([1, 2] ++ [0, 0] : List Nat).length = [1, 2].length + 2 ∧
      ([1, 2] ++ [0, 0] : List Nat).take [1, 2].length = [1, 2] ∧
      ([1, 2] ++ [0, 0] : List Nat).drop [1, 2].length = [0, 0]) ∧
    (wOk.allocOk = false →
      (_ndt_from_string wOk [1, 2] ctx0).result = none ∧
      (_ndt_from_string wOk [1, 2] ctx0).ctx.err =
        some (.MemoryError, "out of memory")) :=
  buffer_preparation wOk [1, 2] ctx0 (by decide)

/-- C10: a call with path "-" applies fclose to the standard-input
stream before returning, whatever the session outcome (success and
failure alike, the world being arbitrary), and a later "-" call in the
same process therefore hands the session an already-closed
standard-input stream; this holds for ndt_from_file and
ndt_from_file_fill_meta alike. -/
theorem stdin_closed_unconditionally (w w2 : World) (m : NdtMeta)
    (fs : FS) (ctx ctx2 : NdtContext) (sc : Bool) :
    (ndt_from_file w fs "-" ctx sc).closedStdin = true ∧
    (ndt_from_file w fs "-" ctx sc).stdinClosedAfter = true ∧
    (ndt_from_file_fill_meta w2 m fs "-" ctx2
        (ndt_from_file w fs "-" ctx sc).stdinClosedAfter).usedClosedStdin =
      true := by
  refine ⟨?_, ?_, ?_⟩ <;>
    simp [ndt_from_file, ndt_from_file_fill_meta, _ndt_from_file]

end Ndtypes
